import Mathlib

/-!
Verification development for the Mada hotel price tracker.

The definitions below are a shallow embedding of the TypeScript source:
  - price normalization and persistence (src/unnamed/part_004,
    calculateActualPrice and savePriceHistory),
  - the file-based session store (src/unnamed/part_005),
  - the sync scheduler (src/server/scraper/scheduler.ts, runSync),
  - the alerting helper (src/server/db-helpers.ts, createPriceAlert),
  - the run telemetry (src/server/scraper/sync-monitor.ts).

JavaScript numbers are modelled as exact rationals, timestamps as integers
(milliseconds), nullable values as Option, and the mutable stores (session
directory, database tables) as explicit state threaded through the
functions.  A JavaScript comparison against a missing (undefined) field is
modelled as false, since any comparison with NaN is false.
-/

namespace Mada

/-! ## Price normalizer (src/unnamed/part_004) -/

/-- JavaScript Math.round: half-up rounding (round half toward positive
infinity), returning an integer.  Stated through the executable Rat.floor so
that concrete instances evaluate; mathRound_eq_floor links it to the
mathematical floor. -/
def mathRound (q : ℚ) : ℤ := Rat.floor (q + 1 / 2)

/-- The fixed markup divisor 1.04998 of calculateActualPrice, as an exact
rational. -/
def markupDivisor : ℚ := 104998 / 100000

/-- calculateActualPrice from src/unnamed/part_004:
Math.round((displayPrice / 1.04998) * 100) / 100 - the price net of the
markup, rounded half-up to two decimals (cents). -/
def calculateActualPrice (displayPrice : ℚ) : ℚ :=
  (mathRound (displayPrice / markupDivisor * 100) : ℚ) / 100

/-- The actualPrice column value written by savePriceHistory
(src/unnamed/part_004).  The source computes
  const actualPrice = displayPrice ? calculateActualPrice(displayPrice) : null
and stores
  actualPrice ? Math.round(actualPrice) : null.
JavaScript truthiness makes both the number 0 and null fall to the null
branch, which the if conditions below reproduce. -/
def savedActualPrice (displayPrice : Option ℚ) : Option ℤ :=
  let actualPrice : Option ℚ :=
    match displayPrice with
    | none => none
    | some p => if p = 0 then none else some (calculateActualPrice p)
  match actualPrice with
  | none => none
  | some a => if a = 0 then none else some (mathRound a)

/-- Modelled from the spec: basePrice(displayPrice) =
round(displayPrice / 1.04998) half-up to the nearest whole currency unit,
null for null input.  This is the formula the spec states; it is compared
against savedActualPrice, the value the source actually persists. -/
def specBasePrice (displayPrice : Option ℚ) : Option ℤ :=
  displayPrice.map (fun p => mathRound (p / markupDivisor))

/-- Rounding half-up to two decimals, used to phrase what the source
actually persists: the cents-first rounding stage of calculateActualPrice. -/
def roundToCents (q : ℚ) : ℚ := (mathRound (q * 100) : ℚ) / 100

/-! ## Session store (src/unnamed/part_005) -/

/-- A parsed session payload.  cookies is none when the field is missing or
not an array (the two cases the structural check of uploadSession rejects
together); timestamp and expiresAt are none when the field is missing. -/
structure SessionData where
  cookies : Option (List String)
  timestamp : Option ℤ
  expiresAt : Option ℤ
deriving DecidableEq

/-- Contents of a stored session file: either bytes that JSON.parse rejects
or a well-formed payload. -/
inductive SessionFile
  | corrupt
  | wellFormed (data : SessionData)
deriving DecidableEq

/-- The session directory: at most one file per user id. -/
def SessionStore := String → Option SessionFile

/-- JavaScript comparison now > expiresAt where expiresAt may be undefined:
comparing with undefined coerces to NaN and every NaN comparison is false. -/
def jsGtOpt (now : ℤ) : Option ℤ → Bool
  | none => false
  | some e => decide (e < now)

/-- deleteSession from src/unnamed/part_005: removes the session file if
present; a no-op otherwise. -/
def deleteSession (store : SessionStore) (userId : String) : SessionStore :=
  fun u => if u = userId then none else store u

/-- saveSession from src/unnamed/part_005: overwrites the session file. -/
def saveSession (store : SessionStore) (userId : String) (s : SessionData) :
    SessionStore :=
  fun u => if u = userId then some (SessionFile.wellFormed s) else store u

/-- loadSession from src/unnamed/part_005.  Returns the loaded payload (or
none) together with the store after the call: a missing file returns none; a
file JSON.parse rejects is caught and returns none with the store unchanged;
a well-formed file whose expiresAt is in the past is deleted and none is
returned; otherwise the payload is returned. -/
def loadSession (now : ℤ) (store : SessionStore) (userId : String) :
    Option SessionData × SessionStore :=
  match store userId with
  | none => (none, store)
  | some SessionFile.corrupt => (none, store)
  | some (SessionFile.wellFormed s) =>
    if jsGtOpt now s.expiresAt then (none, deleteSession store userId)
    else (some s, store)

/-- Fifteen days in milliseconds, the session lifetime constant. -/
def fifteenDaysMs : ℤ := 15 * 24 * 60 * 60 * 1000

/-- Milliseconds per day, used by the age and remaining-days computations. -/
def msPerDay : ℤ := 24 * 60 * 60 * 1000

/-- createSession from src/unnamed/part_005: stamps timestamp := now and
expiresAt := now + 15 days. -/
def createSession (now : ℤ) (cookies : List String) : SessionData :=
  { cookies := some cookies
    timestamp := some now
    expiresAt := some (now + fifteenDaysMs) }

/-- isSessionNeedingVerification from src/unnamed/part_005: true when
loadSession yields nothing; otherwise true exactly when
Math.floor((now - timestamp) / day) is at least 15.  A missing timestamp
makes the age NaN and the comparison false. -/
def isSessionNeedingVerification (now : ℤ) (store : SessionStore)
    (userId : String) : Bool :=
  match (loadSession now store userId).1 with
  | none => true
  | some s =>
    match s.timestamp with
    | none => false
    | some t => decide (15 ≤ Int.fdiv (now - t) msPerDay)

/-- Result of JSON.parse on the string handed to uploadSession. -/
inductive ParsedPayload
  | parseError
  | ok (s : SessionData)

/-- uploadSession from src/unnamed/part_005.  Inside one try block: parse,
reject a payload whose cookies field is missing or not an array, reject one
with Date.now() > expiresAt, otherwise save and return true.  Every throw is
caught and turned into false with no write. -/
def uploadSession (now : ℤ) (store : SessionStore) (userId : String)
    (payload : ParsedPayload) : Bool × SessionStore :=
  match payload with
  | ParsedPayload.parseError => (false, store)
  | ParsedPayload.ok s =>
    if s.cookies.isNone then (false, store)
    else if jsGtOpt now s.expiresAt then (false, store)
    else (true, saveSession store userId s)

/-! ## Sync scheduler (src/server/scraper/scheduler.ts, runSync)

The database rows touched by one run (the created syncLogs row and the
credential row), the persisted priceHistory observations, and the returned
SyncResult are modelled explicitly.  The per-cell outcome of the scraping is
an oracle supplied by the environment; the scheduling code itself is
translated from the source.  The step that can fail above the per-cell
boundary in the source is authentication, modelled by LoginOutcome; the
claims under verification condition only on authentication and on per-cell
outcomes, so the database and browser lifecycle calls around the grid are
modelled as succeeding. -/

/-- The fourteen tracked hotels of HOTELS_TO_TRACK (names only). -/
def HOTELS_TO_TRACK : List String :=
  ["VOCO", "ELAF AJYAD", "Four Points", "Makkah al Aziziah",
   "Novotel Thakher", "Razanah", "Elaf Bakkah", "M Al Danah", "Snaff in",
   "Tapestry Collection by Hilton", "Wrqan Azizyah", "ibis Makkah",
   "Rafahyah Al Azizyah", "Diyar Al Khaledyah"]

/-- The twenty tracked check-in dates of DATES_TO_TRACK. -/
def DATES_TO_TRACK : List String :=
  ["16/02/2026", "17/02/2026", "18/02/2026", "19/02/2026", "20/02/2026",
   "21/02/2026", "22/02/2026", "23/02/2026", "24/02/2026", "25/02/2026",
   "26/02/2026", "27/02/2026", "28/02/2026", "01/03/2026", "02/03/2026",
   "03/03/2026", "04/03/2026", "05/03/2026", "06/03/2026", "07/03/2026"]

/-- What one grid cell does when processed: the body of the try block either
throws (getOrCreateHotel, searchHotelPrice or savePriceHistory raised),
yields null from searchHotelPrice (the scraper caught an internal navigation
or parse error), or yields a non-null result object carrying a nullable
price and an availability flag (the scraper returns price null and
available false when the hotel cannot be matched or carries no price). -/
inductive CellOutcome
  | thrown
  | noResult
  | result (price : Option ℚ) (available : Bool)

/-- A priceHistory row as written by savePriceHistory for one cell. -/
structure Observation where
  hotel : String
  date : String
  displayPrice : Option ℚ
  actualPrice : Option ℤ
  available : Bool
deriving DecidableEq

/-- syncLogs row status values. -/
inductive RunStatus
  | pending
  | running
  | completed
  | failed
deriving DecidableEq

/-- webbedCredentials syncStatus values. -/
inductive CredStatus
  | idle
  | syncing
  | success
  | error
deriving DecidableEq

/-- The fields of the syncLogs row created and updated by runSync. -/
structure SyncLogRow where
  status : RunStatus
  totalHotels : ℕ
  totalDates : ℕ
  successCount : ℕ
  errorCount : ℕ
  errorMessage : Option String
  completedAt : Option ℤ
  duration : Option ℤ
deriving DecidableEq

/-- The credential-row fields runSync updates. -/
structure CredRow where
  syncStatus : CredStatus
  syncError : Option String
  lastSyncAt : Option ℤ
deriving DecidableEq

/-- Outcome of scraper.login inside runSync: returns true, returns false
(runSync then throws a Login failed error), or itself throws with some
message. -/
inductive LoginOutcome
  | ok
  | fail
  | thrown (msg : String)
deriving DecidableEq

/-- Environment of one runSync call: database availability, whether the
user has stored credentials, the login outcome, the per-cell scrape
outcome oracle (hotel index, date index), and the clock readings taken at
the start and end of the run. -/
structure SyncEnv where
  dbAvailable : Bool
  hasCreds : Bool
  login : LoginOutcome
  outcome : ℕ → ℕ → CellOutcome
  startTime : ℤ
  endTime : ℤ

/-- Database state owned by one run after runSync returns. -/
structure RunState where
  syncLog : Option SyncLogRow
  cred : CredRow
  observations : List Observation
deriving DecidableEq

/-- The SyncResult record returned by runSync. -/
structure SyncResult where
  success : Bool
  totalHotels : ℕ
  totalDates : ℕ
  successCount : ℕ
  errorCount : ℕ
  errorMessage : Option String
deriving DecidableEq

/-- The grid as iterated by runSync: hotels outer, dates inner, each cell
paired with its outcome from the oracle. -/
def gridCells (outcome : ℕ → ℕ → CellOutcome) :
    List (String × String × CellOutcome) :=
  (List.enum HOTELS_TO_TRACK).flatMap fun hi =>
    (List.enum DATES_TO_TRACK).map fun di =>
      (hi.2, di.2, outcome hi.1 di.1)

/-- The body of the per-cell try/catch: a non-null result is persisted via
savePriceHistory and counted as a success; a null result or a thrown
exception is counted as an error and nothing is persisted, and the loop
continues with the accumulator. -/
def gridStep (acc : ℕ × ℕ × List Observation)
    (cell : String × String × CellOutcome) : ℕ × ℕ × List Observation :=
  match cell.2.2 with
  | CellOutcome.thrown => (acc.1, acc.2.1 + 1, acc.2.2)
  | CellOutcome.noResult => (acc.1, acc.2.1 + 1, acc.2.2)
  | CellOutcome.result price available =>
    (acc.1 + 1, acc.2.1,
     acc.2.2 ++ [{ hotel := cell.1
                   date := cell.2.1
                   displayPrice := price
                   actualPrice := savedActualPrice price
                   available := available }])

/-- runSync from src/server/scraper/scheduler.ts, as a function of its
environment and the prior credential row.  Returns the run-local database
state and the SyncResult.  The catch branch updates only the credential row
(syncStatus error plus message) and returns a failure result; the syncLogs
row is written only at creation (status running) and after a completed
grid (status completed). -/
def runSync (env : SyncEnv) (cred0 : CredRow) : RunState × SyncResult :=
  if env.dbAvailable = false then
    ({ syncLog := none, cred := cred0, observations := [] },
     { success := false, totalHotels := 0, totalDates := 0,
       successCount := 0, errorCount := 0,
       errorMessage := some "Database not available" })
  else if env.hasCreds = false then
    ({ syncLog := none, cred := cred0, observations := [] },
     { success := false, totalHotels := 0, totalDates := 0,
       successCount := 0, errorCount := 0,
       errorMessage := some "No credentials found" })
  else
    let log0 : SyncLogRow :=
      { status := RunStatus.running
        totalHotels := HOTELS_TO_TRACK.length
        totalDates := DATES_TO_TRACK.length
        successCount := 0
        errorCount := 0
        errorMessage := none
        completedAt := none
        duration := none }
    match env.login with
    | LoginOutcome.fail =>
      ({ syncLog := some log0
         cred := { cred0 with syncStatus := CredStatus.error,
                              syncError := some "Login failed" }
         observations := [] },
       { success := false
         totalHotels := HOTELS_TO_TRACK.length
         totalDates := DATES_TO_TRACK.length
         successCount := 0
         errorCount := 0
         errorMessage := some "Login failed" })
    | LoginOutcome.thrown msg =>
      ({ syncLog := some log0
         cred := { cred0 with syncStatus := CredStatus.error,
                              syncError := some msg }
         observations := [] },
       { success := false
         totalHotels := HOTELS_TO_TRACK.length
         totalDates := DATES_TO_TRACK.length
         successCount := 0
         errorCount := 0
         errorMessage := some msg })
    | LoginOutcome.ok =>
      let acc := (gridCells env.outcome).foldl gridStep (0, 0, [])
      ({ syncLog := some
           { log0 with
             status := RunStatus.completed
             successCount := acc.1
             errorCount := acc.2.1
             completedAt := some env.endTime
             duration := some (mathRound ((env.endTime - env.startTime : ℚ) / 1000)) }
         cred := { syncStatus := CredStatus.success
                   syncError := none
                   lastSyncAt := some env.endTime }
         observations := acc.2.2 },
       { success := true
         totalHotels := HOTELS_TO_TRACK.length
         totalDates := DATES_TO_TRACK.length
         successCount := acc.1
         errorCount := acc.2.1
         errorMessage := none })

/-- True for a cell outcome that yields a non-null result object. -/
def isResultCell (c : CellOutcome) : Bool :=
  match c with
  | CellOutcome.result _ _ => true
  | _ => false

/-- The observation a result cell persists; none for null or thrown cells. -/
def cellObservation (cell : String × String × CellOutcome) : Option Observation :=
  match cell.2.2 with
  | CellOutcome.result price available =>
    some { hotel := cell.1
           date := cell.2.1
           displayPrice := price
           actualPrice := savedActualPrice price
           available := available }
  | _ => none

/-! ## Run telemetry (src/server/scraper/sync-monitor.ts) -/

/-- The SyncMonitor mutable state: the stats record plus the rolling
cycleDurations window. -/
structure MonitorState where
  totalCycles : ℕ
  successfulCycles : ℕ
  failedCycles : ℕ
  lastSyncTime : Option ℤ
  lastSyncDuration : Option ℤ
  startTime : ℤ
  averageCycleDuration : ℚ
  totalItemsProcessed : ℤ
  cycleDurations : List ℤ

/-- The freshly constructed (or reset) monitor. -/
def initialMonitor (now : ℤ) : MonitorState :=
  { totalCycles := 0
    successfulCycles := 0
    failedCycles := 0
    lastSyncTime := none
    lastSyncDuration := none
    startTime := now
    averageCycleDuration := 0
    totalItemsProcessed := 0
    cycleDurations := [] }

/-- endCycle from sync-monitor.ts: bump the counters, push the duration,
drop the oldest entry once the window exceeds 100, recompute the average
over the window. -/
def endCycle (now startTime : ℤ) (success : Bool) (items : ℤ)
    (st : MonitorState) : MonitorState :=
  let duration := now - startTime
  let pushed := st.cycleDurations ++ [duration]
  let window := if 100 < pushed.length then pushed.drop 1 else pushed
  { totalCycles := st.totalCycles + 1
    successfulCycles :=
      if success then st.successfulCycles + 1 else st.successfulCycles
    failedCycles := if success then st.failedCycles else st.failedCycles + 1
    lastSyncTime := some now
    lastSyncDuration := some duration
    startTime := st.startTime
    averageCycleDuration := (window.foldl (fun a b => a + b) 0 : ℚ) / window.length
    totalItemsProcessed := st.totalItemsProcessed + items
    cycleDurations := window }

/-- One recorded cycle: clock at end, token from startCycle, success flag,
items processed. -/
structure CycleEvent where
  now : ℤ
  startTime : ℤ
  success : Bool
  items : ℤ

/-- The monitor state after a sequence of endCycle calls on a fresh
monitor. -/
def runMonitor (t0 : ℤ) (events : List CycleEvent) : MonitorState :=
  events.foldl
    (fun st e => endCycle e.now e.startTime e.success e.items st)
    (initialMonitor t0)

/-- Rounding half-up to two decimals: the numeric content of the
JavaScript toFixed(2) formatting for the nonnegative values produced
here. -/
def toFixedTwo (q : ℚ) : ℚ := (mathRound (q * 100) : ℚ) / 100

/-- The numeric value inside the successRate string of getFormattedStats:
(successfulCycles / totalCycles * 100).toFixed(2) when totalCycles is
positive, the string 0 otherwise (the percent sign is presentation only). -/
def formattedSuccessRate (st : MonitorState) : ℚ :=
  if 0 < st.totalCycles then
    toFixedTwo ((st.successfulCycles : ℚ) / (st.totalCycles : ℚ) * 100)
  else 0

/-! ## Alerting engine (src/server/db-helpers.ts, createPriceAlert) -/

/-- A priceAlerts row.  isActive mirrors the integer column (1 active,
0 dismissed). -/
structure AlertRow where
  id : ℕ
  userId : ℕ
  hotelId : ℕ
  date : String
  userPrice : ℤ
  competitorPrice : ℤ
  priceDifference : ℤ
  alertType : String
  isActive : ℕ
  createdAt : ℤ
  dismissedAt : Option ℤ
deriving DecidableEq

/-- The active-alert lookup filter of createPriceAlert: same user, hotel
and date, isActive = 1. -/
def alertKeyMatch (userId hotelId : ℕ) (date : String) (a : AlertRow) : Bool :=
  a.userId = userId && a.hotelId = hotelId && a.date = date && a.isActive = 1

/-- createPriceAlert from src/server/db-helpers.ts over the priceAlerts
table held as a list in insertion order (find? models the limit-1 query,
append models insert, and the update-by-id touches every row carrying the
found id).  freshId is the id the insert would allocate. -/
def createPriceAlert (now : ℤ) (freshId : ℕ) (table : List AlertRow)
    (userId hotelId : ℕ) (date : String) (userPrice competitorPrice : ℤ) :
    List AlertRow :=
  let priceDifference := competitorPrice - userPrice
  let alertType : String :=
    if priceDifference < 0 then "price_lower"
    else if 0 < priceDifference then "price_higher"
    else "price_equal"
  if alertType = "price_lower" then
    match table.find? (fun a => alertKeyMatch userId hotelId date a) with
    | some a =>
      table.map fun r =>
        if r.id = a.id then
          { r with competitorPrice := competitorPrice
                   priceDifference := priceDifference
                   alertType := alertType
                   createdAt := now }
        else r
    | none =>
      table ++ [{ id := freshId
                  userId := userId
                  hotelId := hotelId
                  date := date
                  userPrice := userPrice
                  competitorPrice := competitorPrice
                  priceDifference := priceDifference
                  alertType := alertType
                  isActive := 1
                  createdAt := now
                  dismissedAt := none }]
  else table

/-! ## Concrete instances used by the theorems -/

/-- A store holding one unparseable session file, for the C5
counterexample. -/
def corruptStore : SessionStore :=
  fun u => if u = "owner1" then some SessionFile.corrupt else none

/-- The empty session directory. -/
def emptyStore : SessionStore := fun _ => none

/-- A payload with a cookies array but no expiresAt field, for C6. -/
def noExpiryPayload : SessionData :=
  { cookies := some [], timestamp := some 0, expiresAt := none }

/-- A payload with a cookies array and a future expiresAt, for the C6
witness. -/
def goodPayload : SessionData :=
  { cookies := some ["a"], timestamp := some 0, expiresAt := some 9 }

/-- A payload without a cookies collection, for the C6 witness. -/
def badPayload : SessionData :=
  { cookies := none, timestamp := some 0, expiresAt := some 9 }

/-- A credential row before the run, for concrete scheduler instances. -/
def idleCred : CredRow :=
  { syncStatus := CredStatus.idle, syncError := none, lastSyncAt := none }

/-- The syncLogs row as created at the start of a run. -/
def runningLogRow : SyncLogRow :=
  { status := RunStatus.running
    totalHotels := 14
    totalDates := 20
    successCount := 0
    errorCount := 0
    errorMessage := none
    completedAt := none
    duration := none }

/-- An environment whose login fails, for the C2 counterexample. -/
def loginFailEnv : SyncEnv :=
  { dbAvailable := true
    hasCreds := true
    login := LoginOutcome.fail
    outcome := fun _ _ => CellOutcome.noResult
    startTime := 0
    endTime := 0 }

/-- An environment whose every cell search returns null, for the C3
counterexample. -/
def allNullEnv : SyncEnv :=
  { dbAvailable := true
    hasCreds := true
    login := LoginOutcome.ok
    outcome := fun _ _ => CellOutcome.noResult
    startTime := 0
    endTime := 0 }

/-- An environment with exactly five per-cell failures (five thrown cells
of the first hotel) and 275 non-null results, for the C4 witness. -/
def fiveFailEnv : SyncEnv :=
  { dbAvailable := true
    hasCreds := true
    login := LoginOutcome.ok
    outcome := fun i j =>
      if i = 0 && j < 5 then CellOutcome.thrown
      else CellOutcome.result none false
    startTime := 0
    endTime := 0 }

/-- Two recorded cycles, one success and one failure, for the C9 witness. -/
def twoCycleEvents : List CycleEvent :=
  [{ now := 5, startTime := 0, success := true, items := 3 },
   { now := 9, startTime := 7, success := false, items := 0 }]

/-- A single recorded cycle, for the C9 witness. -/
def oneCycleEvent : CycleEvent :=
  { now := 5, startTime := 0, success := true, items := 3 }

/-- The in-place update createPriceAlert applies to the found alert row. -/
def updatedAlert (now cp : ℤ) (up : ℤ) (a : AlertRow) : AlertRow :=
  { a with competitorPrice := cp
           priceDifference := cp - up
           alertType := "price_lower"
           createdAt := now }

/-- The fresh row createPriceAlert inserts when no active alert exists. -/
def newAlert (now : ℤ) (freshId : ℕ) (u h : ℕ) (dt : String)
    (up cp : ℤ) : AlertRow :=
  { id := freshId
    userId := u
    hotelId := h
    date := dt
    userPrice := up
    competitorPrice := cp
    priceDifference := cp - up
    alertType := "price_lower"
    isActive := 1
    createdAt := now
    dismissedAt := none }

/-- The alert created by the first evaluation of the C8 scenario
(customPrice 220 against competitor 200). -/
def firstAlertRow : AlertRow := newAlert 100 1 7 3 "2026-02-16" 220 200

/-- The table after the first evaluation of the C8 scenario. -/
def alertsAfterFirst : List AlertRow :=
  createPriceAlert 100 1 [] 7 3 "2026-02-16" 220 200

/-- The table after re-evaluating with competitor price 205. -/
def alertsAfterSecond : List AlertRow :=
  createPriceAlert 200 2 alertsAfterFirst 7 3 "2026-02-16" 220 205

/-! # Theorems -/
/-- mathRound is the floor of q + 1/2, the usual description of half-up
rounding. -/
theorem mathRound_eq_floor (q : ℚ) : mathRound q = ⌊q + 1 / 2⌋ := by
  unfold mathRound
  rw [Rat.floor_def', ← Rat.floor_def]

/-- calculateActualPrice is the cents rounding of the markup-free price. -/
theorem calculateActualPrice_eq (p : ℚ) :
    calculateActualPrice p = roundToCents (p / markupDivisor) := rfl

unseal Rat.mul Rat.inv Rat.add Rat.sub in
/-- C1: counterexample.  The claim predicts that for every displayPrice > 0
the persisted base price equals displayPrice / 1.04998 rounded half-up to
the nearest whole unit.  At displayPrice = 1040 the quotient is 990.4950...,
whose direct half-up rounding is 990, but the code first rounds to cents
(990.50) and then half-up to a whole unit, persisting 991. -/
theorem c1_base_price_counterexample :
    savedActualPrice (some 1040) = some 991 ∧
    specBasePrice (some 1040) = some 990 ∧
    ¬ (∀ p : ℚ, 0 < p → savedActualPrice (some p) = specBasePrice (some p)) := by
  refine ⟨by decide, by decide, fun h => ?_⟩
  have h1 := h 1040 (by norm_num)
  rw [(by decide : savedActualPrice (some 1040) = some 991),
      (by decide : specBasePrice (some 1040) = some 990)] at h1
  exact absurd h1 (by decide)

unseal Rat.mul Rat.inv Rat.add Rat.sub in
/-- C1 (amended): for every displayPrice > 0 whose markup-free value rounded
half-up to cents is nonzero, the persisted base price is that cents value
rounded half-up again to a whole unit (a two-stage rounding, which can
exceed the direct rounding by one); displayPrice 210 persists 200 and 300
persists 286 as the claim states, and a null displayPrice persists null. -/
theorem c1_base_price_amended :
    (∀ p : ℚ, 0 < p → roundToCents (p / markupDivisor) ≠ 0 →
      savedActualPrice (some p) =
        some (mathRound (roundToCents (p / markupDivisor)))) ∧
    savedActualPrice (some 210) = some 200 ∧
    savedActualPrice (some 300) = some 286 ∧
    savedActualPrice none = none := by
  refine ⟨?_, by decide, by decide, rfl⟩
  intro p hp hne
  have hp0 : ¬ p = 0 := ne_of_gt hp
  have hne2 : ¬ calculateActualPrice p = 0 := by
    rw [calculateActualPrice_eq]; exact hne
  simp only [savedActualPrice, if_neg hp0, if_neg hne2, calculateActualPrice_eq]
  rw [if_neg hne]

unseal Rat.mul Rat.inv Rat.add Rat.sub in
/-- C1 witness: the amended statement applied at displayPrice 210. -/
theorem c1_base_price_amended_witness :
    0 < (210 : ℚ) ∧ roundToCents ((210 : ℚ) / markupDivisor) ≠ 0 ∧
    savedActualPrice (some 210) =
      some (mathRound (roundToCents ((210 : ℚ) / markupDivisor))) :=
  ⟨by norm_num, by decide, c1_base_price_amended.1 210 (by norm_num) (by decide)⟩

/-- C5: counterexample.  The claim says any read/parse error causes the
stored session to be deleted; in the source the catch branch of loadSession
only returns null, so after loading a corrupt file the store still contains
it. -/
theorem c5_load_counterexample :
    (loadSession 0 corruptStore "owner1").1 = none ∧
    (loadSession 0 corruptStore "owner1").2 "owner1" = some SessionFile.corrupt ∧
    ¬ (loadSession 0 corruptStore "owner1").2 "owner1" = none := by
  refine ⟨rfl, rfl, by decide⟩

/-- C5 (amended): loadSession never raises (it is a total function); a
parse error yields none with the store left unchanged (the file is not
deleted); an expired session (now beyond expiresAt) is deleted and none is
returned; a session created at T and loaded one second after the 15-day
expiry is gone from the store afterwards, and deleting again is a no-op. -/
theorem c5_load_amended :
    (∀ (now : ℤ) (store : SessionStore) (uid : String),
      store uid = some SessionFile.corrupt →
      (loadSession now store uid).1 = none ∧
      (loadSession now store uid).2 = store) ∧
    (∀ (now : ℤ) (store : SessionStore) (uid : String) (s : SessionData),
      store uid = some (SessionFile.wellFormed s) →
      jsGtOpt now s.expiresAt = true →
      (loadSession now store uid).1 = none ∧
      (loadSession now store uid).2 uid = none) ∧
    (∀ (T : ℤ) (store : SessionStore) (uid : String) (cookies : List String),
      (loadSession (T + fifteenDaysMs + 1000)
        (saveSession store uid (createSession T cookies)) uid).1 = none ∧
      (loadSession (T + fifteenDaysMs + 1000)
        (saveSession store uid (createSession T cookies)) uid).2 uid = none ∧
      deleteSession
        (loadSession (T + fifteenDaysMs + 1000)
          (saveSession store uid (createSession T cookies)) uid).2 uid =
        (loadSession (T + fifteenDaysMs + 1000)
          (saveSession store uid (createSession T cookies)) uid).2) := by
  refine ⟨?_, ?_, ?_⟩
  · intro now store uid h
    simp [loadSession, h]
  · intro now store uid s h hexp
    simp [loadSession, h, hexp, deleteSession]
  · intro T store uid cookies
    have hlook : (saveSession store uid (createSession T cookies)) uid =
        some (SessionFile.wellFormed (createSession T cookies)) := by
      simp [saveSession]
    have hexp : jsGtOpt (T + fifteenDaysMs + 1000)
        (createSession T cookies).expiresAt = true := by
      simp [createSession, jsGtOpt, fifteenDaysMs]
    refine ⟨?_, ?_, ?_⟩
    · simp [loadSession, hlook, hexp]
    · simp [loadSession, hlook, hexp, deleteSession]
    · simp only [loadSession, hlook, hexp, if_true]
      funext u
      by_cases hu : u = uid <;> simp [deleteSession, hu]

/-- C5 witness: the amended statement applied to a concrete corrupt store, a
concrete expired session, and a concrete freshly created session. -/
theorem c5_load_amended_witness :
    (corruptStore "owner1" = some SessionFile.corrupt ∧
      (loadSession 7 corruptStore "owner1").1 = none ∧
      (loadSession 7 corruptStore "owner1").2 = corruptStore) ∧
    ((saveSession corruptStore "owner2"
        { cookies := some [], timestamp := some 0, expiresAt := some 10 }) "owner2" =
          some (SessionFile.wellFormed
            { cookies := some [], timestamp := some 0, expiresAt := some 10 }) ∧
      jsGtOpt 11 (some (10 : ℤ)) = true ∧
      (loadSession 11 (saveSession corruptStore "owner2"
        { cookies := some [], timestamp := some 0, expiresAt := some 10 }) "owner2").1
          = none ∧
      (loadSession 11 (saveSession corruptStore "owner2"
        { cookies := some [], timestamp := some 0, expiresAt := some 10 }) "owner2").2
          "owner2" = none) ∧
    ((loadSession (0 + fifteenDaysMs + 1000)
        (saveSession corruptStore "owner3" (createSession 0 ["c"])) "owner3").1 = none ∧
      (loadSession (0 + fifteenDaysMs + 1000)
        (saveSession corruptStore "owner3" (createSession 0 ["c"])) "owner3").2
          "owner3" = none ∧
      deleteSession
        (loadSession (0 + fifteenDaysMs + 1000)
          (saveSession corruptStore "owner3" (createSession 0 ["c"])) "owner3").2
          "owner3" =
        (loadSession (0 + fifteenDaysMs + 1000)
          (saveSession corruptStore "owner3" (createSession 0 ["c"])) "owner3").2) := by
  refine ⟨⟨rfl, c5_load_amended.1 7 corruptStore "owner1" rfl⟩,
          ⟨rfl, rfl, c5_load_amended.2.1 11 _ "owner2" _ rfl rfl⟩,
          c5_load_amended.2.2 0 corruptStore "owner3" ["c"]⟩

/-- C6: counterexample.  The claim says uploadSession persists only when the
payload has a cookies collection and its expiresAt is in the future; a
payload with cookies but no expiresAt field at all has no expiresAt in the
future, yet the comparison Date.now() > undefined is false, so the source
persists it and returns true. -/
theorem c6_upload_counterexample :
    noExpiryPayload.expiresAt = none ∧
    (uploadSession 5 emptyStore "owner1" (ParsedPayload.ok noExpiryPayload)).1
      = true ∧
    (uploadSession 5 emptyStore "owner1" (ParsedPayload.ok noExpiryPayload)).2
      "owner1" = some (SessionFile.wellFormed noExpiryPayload) :=
  ⟨rfl, rfl, rfl⟩

/-- C6 (amended): uploadSession returns true and persists exactly when the
payload parses, contains a cookies collection, and Date.now() > expiresAt is
false (which holds when expiresAt is at or after now, and also when it is
missing); every failing payload, including an unparseable one, returns
false and leaves the store untouched; the function is total (never raises
to the caller). -/
theorem c6_upload_amended :
    (∀ (now : ℤ) (store : SessionStore) (uid : String) (s : SessionData),
      (uploadSession now store uid (ParsedPayload.ok s)).1 = true ↔
        (s.cookies.isSome = true ∧ jsGtOpt now s.expiresAt = false)) ∧
    (∀ (now : ℤ) (store : SessionStore) (uid : String) (s : SessionData),
      (uploadSession now store uid (ParsedPayload.ok s)).1 = true →
      (uploadSession now store uid (ParsedPayload.ok s)).2 =
        saveSession store uid s) ∧
    (∀ (now : ℤ) (store : SessionStore) (uid : String) (p : ParsedPayload),
      (uploadSession now store uid p).1 = false →
      (uploadSession now store uid p).2 = store) := by
  refine ⟨?_, ?_, ?_⟩
  · intro now store uid s
    cases hc : s.cookies with
    | none => simp [uploadSession, hc]
    | some cs =>
      cases hg : jsGtOpt now s.expiresAt with
      | true => simp [uploadSession, hc, hg]
      | false => simp [uploadSession, hc, hg]
  · intro now store uid s h
    cases hc : s.cookies with
    | none => simp [uploadSession, hc] at h
    | some cs =>
      cases hg : jsGtOpt now s.expiresAt with
      | true => simp [uploadSession, hc, hg] at h
      | false => simp [uploadSession, hc, hg]
  · intro now store uid p h
    match p with
    | ParsedPayload.parseError => rfl
    | ParsedPayload.ok s =>
      cases hc : s.cookies with
      | none => simp [uploadSession, hc]
      | some cs =>
        cases hg : jsGtOpt now s.expiresAt with
        | true => simp [uploadSession, hc, hg]
        | false => simp [uploadSession, hc, hg] at h

/-- C6 witness: the amended statement applied to a concrete accepted payload
and a concrete rejected one. -/
theorem c6_upload_amended_witness :
    ((uploadSession 5 emptyStore "owner1" (ParsedPayload.ok goodPayload)).1
        = true ↔
      (goodPayload.cookies.isSome = true ∧
        jsGtOpt 5 goodPayload.expiresAt = false)) ∧
    (uploadSession 5 emptyStore "owner1" (ParsedPayload.ok goodPayload)).2 =
      saveSession emptyStore "owner1" goodPayload ∧
    (uploadSession 5 emptyStore "owner2" (ParsedPayload.ok badPayload)).2 =
      emptyStore :=
  ⟨c6_upload_amended.1 5 emptyStore "owner1" goodPayload,
   c6_upload_amended.2.1 5 emptyStore "owner1" goodPayload rfl,
   c6_upload_amended.2.2 5 emptyStore "owner2" (ParsedPayload.ok badPayload) rfl⟩

/-- C7: isSessionNeedingVerification returns true whenever loadSession
yields no session (the absent, malformed and expired cases all load as
none), and also whenever the loaded session's age from its creation
timestamp is at least 15 days regardless of expiresAt; it returns false for
a session freshly created at the current instant. -/
theorem c7_needs_verification :
    (∀ (now : ℤ) (store : SessionStore) (uid : String),
      (loadSession now store uid).1 = none →
      isSessionNeedingVerification now store uid = true) ∧
    (∀ (now : ℤ) (store : SessionStore) (uid : String) (s : SessionData)
      (t : ℤ),
      store uid = some (SessionFile.wellFormed s) →
      s.timestamp = some t →
      fifteenDaysMs ≤ now - t →
      isSessionNeedingVerification now store uid = true) ∧
    (∀ (T : ℤ) (store : SessionStore) (uid : String) (cookies : List String),
      isSessionNeedingVerification T
        (saveSession store uid (createSession T cookies)) uid = false) := by
  refine ⟨?_, ?_, ?_⟩
  · intro now store uid h
    simp [isSessionNeedingVerification, h]
  · intro now store uid s t hlook ht hage
    cases hg : jsGtOpt now s.expiresAt with
    | true => simp [isSessionNeedingVerification, loadSession, hlook, hg]
    | false =>
      have hpos : (0 : ℤ) < msPerDay := by norm_num [msPerDay]
      have h15 : (15 : ℤ) * msPerDay = fifteenDaysMs := by
        norm_num [msPerDay, fifteenDaysMs]
      have hle : (15 : ℤ) ≤ Int.fdiv (now - t) msPerDay := by
        rw [Int.fdiv_eq_ediv _ (le_of_lt hpos),
            Int.le_ediv_iff_mul_le hpos, h15]
        exact hage
      simp [isSessionNeedingVerification, loadSession, hlook, hg, ht, hle]
  · intro T store uid cookies
    have hlook : saveSession store uid (createSession T cookies) uid =
        some (SessionFile.wellFormed (createSession T cookies)) := by
      simp [saveSession]
    have hg : jsGtOpt T (createSession T cookies).expiresAt = false := by
      simp only [createSession, jsGtOpt, decide_eq_false_iff_not, not_lt,
        fifteenDaysMs]
      omega
    simp only [isSessionNeedingVerification, loadSession, hlook, hg]
    simp [createSession, sub_self, Int.zero_fdiv]

/-- C7 witness: the three parts applied to the empty store, to a concrete
16-day-old session whose expiresAt is still ahead, and to a concrete fresh
session. -/
theorem c7_needs_verification_witness :
    isSessionNeedingVerification 0 emptyStore "owner1" = true ∧
    isSessionNeedingVerification 1382400000
      (saveSession emptyStore "owner2"
        { cookies := some [], timestamp := some 0,
          expiresAt := some 2000000000 }) "owner2" = true ∧
    isSessionNeedingVerification 0
      (saveSession emptyStore "owner3" (createSession 0 [])) "owner3" = false :=
  ⟨c7_needs_verification.1 0 emptyStore "owner1" rfl,
   c7_needs_verification.2.1 1382400000 _ "owner2"
     { cookies := some [], timestamp := some 0, expiresAt := some 2000000000 }
     0 rfl rfl (by decide),
   c7_needs_verification.2.2 0 emptyStore "owner3" []⟩

/-- C10: a payload carrying a cookies array but no expiresAt field passes
the temporal check of uploadSession (the comparison with the missing field
is false), is persisted, returns true, and a later loadSession at any time
returns the session without ever treating it as expired, leaving the store
unchanged. -/
theorem c10_missing_expiry :
    ∀ (now0 now1 : ℤ) (store : SessionStore) (uid : String) (s : SessionData),
      s.cookies.isSome = true →
      s.expiresAt = none →
      (uploadSession now0 store uid (ParsedPayload.ok s)).1 = true ∧
      (uploadSession now0 store uid (ParsedPayload.ok s)).2 uid =
        some (SessionFile.wellFormed s) ∧
      (loadSession now1
        (uploadSession now0 store uid (ParsedPayload.ok s)).2 uid).1 = some s ∧
      (loadSession now1
        (uploadSession now0 store uid (ParsedPayload.ok s)).2 uid).2 =
        (uploadSession now0 store uid (ParsedPayload.ok s)).2 := by
  intro now0 now1 store uid s hc he
  have hcn : s.cookies.isNone = false := by
    cases hcs : s.cookies with
    | none => rw [hcs] at hc; simp at hc
    | some cs => rfl
  have hup : uploadSession now0 store uid (ParsedPayload.ok s) =
      (true, saveSession store uid s) := by
    simp [uploadSession, hcn, he, jsGtOpt]
  have hlook : (saveSession store uid s) uid =
      some (SessionFile.wellFormed s) := by simp [saveSession]
  refine ⟨by rw [hup], by rw [hup]; exact hlook, ?_, ?_⟩
  · rw [hup]
    simp [loadSession, hlook, he, jsGtOpt]
  · rw [hup]
    simp [loadSession, hlook, he, jsGtOpt]

/-- C10 witness: the statement applied to the concrete no-expiry payload,
uploaded at time 5 and loaded far in the future. -/
theorem c10_missing_expiry_witness :
    (uploadSession 5 emptyStore "owner1" (ParsedPayload.ok noExpiryPayload)).1
      = true ∧
    (uploadSession 5 emptyStore "owner1" (ParsedPayload.ok noExpiryPayload)).2
      "owner1" = some (SessionFile.wellFormed noExpiryPayload) ∧
    (loadSession 99999999999
      (uploadSession 5 emptyStore "owner1"
        (ParsedPayload.ok noExpiryPayload)).2 "owner1").1 =
      some noExpiryPayload ∧
    (loadSession 99999999999
      (uploadSession 5 emptyStore "owner1"
        (ParsedPayload.ok noExpiryPayload)).2 "owner1").2 =
      (uploadSession 5 emptyStore "owner1"
        (ParsedPayload.ok noExpiryPayload)).2 :=
  c10_missing_expiry 5 99999999999 emptyStore "owner1" noExpiryPayload rfl rfl

/-- The grid fold: starting from counts s, e and already-written rows obs,
processing a cell list adds one success per non-null result, one error per
null or thrown cell, and appends exactly the observations of the result
cells, in order. -/
theorem gridStep_foldl (l : List (String × String × CellOutcome))
    (s e : ℕ) (obs : List Observation) :
    l.foldl gridStep (s, e, obs) =
      (s + l.countP (fun c => isResultCell c.2.2),
       e + l.countP (fun c => !isResultCell c.2.2),
       obs ++ l.filterMap cellObservation) := by
  induction l generalizing s e obs with
  | nil => simp
  | cons c cs ih =>
    obtain ⟨h, d, oc⟩ := c
    cases oc with
    | thrown =>
      rw [List.foldl_cons]
      show cs.foldl gridStep (s, e + 1, obs) = _
      rw [ih]
      simp [List.countP_cons, isResultCell, cellObservation]
      omega
    | noResult =>
      rw [List.foldl_cons]
      show cs.foldl gridStep (s, e + 1, obs) = _
      rw [ih]
      simp [List.countP_cons, isResultCell, cellObservation]
      omega
    | result price available =>
      rw [List.foldl_cons]
      show cs.foldl gridStep (s + 1, e,
        obs ++ [{ hotel := h, date := d, displayPrice := price,
                  actualPrice := savedActualPrice price,
                  available := available }]) = _
      rw [ih]
      simp [List.countP_cons, isResultCell, cellObservation]
      omega

/-- Splitting the cells into result and non-result cells counts every
cell exactly once. -/
theorem countP_split (l : List (String × String × CellOutcome)) :
    l.countP (fun c => isResultCell c.2.2) +
      l.countP (fun c => !isResultCell c.2.2) = l.length := by
  induction l with
  | nil => rfl
  | cons c cs ih =>
    simp only [List.countP_cons, List.length_cons]
    cases hc : isResultCell c.2.2 <;> simp [hc] <;> omega

set_option maxRecDepth 4000 in
/-- The grid has 14 times 20 cells whatever the outcomes are. -/
theorem gridCells_length (outcome : ℕ → ℕ → CellOutcome) :
    (gridCells outcome).length = 280 := rfl

/-- After a successful login, runSync runs the whole grid and returns the
completed state: counts split the 280 cells into result and non-result
cells, the observations are exactly those of the result cells, the syncLogs
row reaches status completed, and the credential row reaches syncStatus
success. -/
theorem runSync_ok_spec (env : SyncEnv) (cred0 : CredRow)
    (hdb : env.dbAvailable = true) (hc : env.hasCreds = true)
    (hl : env.login = LoginOutcome.ok) :
    (runSync env cred0).1 =
      { syncLog := some
          { status := RunStatus.completed
            totalHotels := 14
            totalDates := 20
            successCount :=
              (gridCells env.outcome).countP (fun c => isResultCell c.2.2)
            errorCount :=
              (gridCells env.outcome).countP (fun c => !isResultCell c.2.2)
            errorMessage := none
            completedAt := some env.endTime
            duration := some (mathRound
              ((env.endTime - env.startTime : ℚ) / 1000)) }
        cred := { syncStatus := CredStatus.success
                  syncError := none
                  lastSyncAt := some env.endTime }
        observations := (gridCells env.outcome).filterMap cellObservation } ∧
    (runSync env cred0).2 =
      { success := true
        totalHotels := 14
        totalDates := 20
        successCount :=
          (gridCells env.outcome).countP (fun c => isResultCell c.2.2)
        errorCount :=
          (gridCells env.outcome).countP (fun c => !isResultCell c.2.2)
        errorMessage := none } := by
  have hstep := gridStep_foldl (gridCells env.outcome) 0 0 []
  constructor <;>
    simp [runSync, hdb, hc, hl, hstep, HOTELS_TO_TRACK, DATES_TO_TRACK]

/-- C2: counterexample.  The claim says a failed authentication marks the
syncLogs row failed with the error message; in the source the catch branch
of runSync updates only the credential row, so after a failed login the
syncLogs row still holds status running and a null errorMessage, and no row
with status failed exists. -/
theorem c2_auth_counterexample :
    (runSync loginFailEnv idleCred).1.syncLog = some runningLogRow ∧
    runningLogRow.status = RunStatus.running ∧
    runningLogRow.errorMessage = none ∧
    ¬ (∃ row, (runSync loginFailEnv idleCred).1.syncLog = some row ∧
        row.status = RunStatus.failed) := by
  refine ⟨rfl, rfl, rfl, ?_⟩
  rintro ⟨row, hr, hs⟩
  have h2 : runningLogRow = row := Option.some.inj hr
  rw [← h2] at hs
  exact absurd hs (by decide)

/-- C2 (amended): when authentication fails or throws, the run stops with a
failure result whose successCount is zero and whose error message is
non-null, zero observations are persisted, and the credential row is set to
syncStatus error carrying that message; the syncLogs row, however, is left
exactly as created - status running, zero counts, null errorMessage - and
is never marked failed. -/
theorem c2_auth_failure_amended :
    ∀ (env : SyncEnv) (cred0 : CredRow),
      env.dbAvailable = true → env.hasCreds = true →
      env.login ≠ LoginOutcome.ok →
      (runSync env cred0).2.success = false ∧
      (runSync env cred0).2.successCount = 0 ∧
      (runSync env cred0).2.errorMessage ≠ none ∧
      (runSync env cred0).1.observations = [] ∧
      (runSync env cred0).1.cred.syncStatus = CredStatus.error ∧
      (runSync env cred0).1.cred.syncError = (runSync env cred0).2.errorMessage ∧
      (runSync env cred0).1.syncLog = some runningLogRow := by
  intro env cred0 hdb hc hl
  cases hlogin : env.login with
  | ok => exact absurd hlogin hl
  | fail =>
    simp [runSync, hdb, hc, hlogin, runningLogRow, HOTELS_TO_TRACK,
      DATES_TO_TRACK]
  | thrown msg =>
    simp [runSync, hdb, hc, hlogin, runningLogRow, HOTELS_TO_TRACK,
      DATES_TO_TRACK]

/-- C2 witness: the amended statement applied to the concrete failing-login
environment. -/
theorem c2_auth_failure_amended_witness :
    (runSync loginFailEnv idleCred).2.success = false ∧
    (runSync loginFailEnv idleCred).2.successCount = 0 ∧
    (runSync loginFailEnv idleCred).2.errorMessage ≠ none ∧
    (runSync loginFailEnv idleCred).1.observations = [] ∧
    (runSync loginFailEnv idleCred).1.cred.syncStatus = CredStatus.error ∧
    (runSync loginFailEnv idleCred).1.cred.syncError =
      (runSync loginFailEnv idleCred).2.errorMessage ∧
    (runSync loginFailEnv idleCred).1.syncLog = some runningLogRow :=
  c2_auth_failure_amended loginFailEnv idleCred rfl rfl (by decide)

set_option maxRecDepth 8000 in
/-- C3: counterexample.  The claim says an observation is persisted for
every cell regardless of the search result, including a null one; in a run
whose 280 searches all return null the source persists nothing at all while
counting 280 errors. -/
theorem c3_grid_counterexample :
    (runSync allNullEnv idleCred).2.successCount = 0 ∧
    (runSync allNullEnv idleCred).2.errorCount = 280 ∧
    (runSync allNullEnv idleCred).1.observations = [] := by
  refine ⟨by decide, by decide, by decide⟩

/-- C3 (amended): during the grid iteration every cell increments exactly
one of the two counters (their sum is the full 280-cell grid, so a thrown
cell is caught locally and the loop reaches every later cell), but a
PriceObservation is persisted only for cells whose search returns a
non-null result object (the no-match object with available false and null
price is persisted and counted as a success); a null return or a thrown
exception increments errorCount and persists nothing. -/
theorem c3_grid_amended :
    ∀ (env : SyncEnv) (cred0 : CredRow),
      env.dbAvailable = true → env.hasCreds = true →
      env.login = LoginOutcome.ok →
      (runSync env cred0).2.successCount =
        (gridCells env.outcome).countP (fun c => isResultCell c.2.2) ∧
      (runSync env cred0).2.errorCount =
        (gridCells env.outcome).countP (fun c => !isResultCell c.2.2) ∧
      (runSync env cred0).2.successCount +
        (runSync env cred0).2.errorCount = 280 ∧
      (runSync env cred0).1.observations =
        (gridCells env.outcome).filterMap cellObservation := by
  intro env cred0 hdb hc hl
  obtain ⟨h1, h2⟩ := runSync_ok_spec env cred0 hdb hc hl
  refine ⟨?_, ?_, ?_, ?_⟩
  · rw [h2]
  · rw [h2]
  · have hsum := countP_split (gridCells env.outcome)
    rw [gridCells_length] at hsum
    rw [h2]
    exact hsum
  · rw [h1]

/-- C3 witness: the amended statement applied to the all-null environment. -/
theorem c3_grid_amended_witness :
    (runSync allNullEnv idleCred).2.successCount =
      (gridCells allNullEnv.outcome).countP (fun c => isResultCell c.2.2) ∧
    (runSync allNullEnv idleCred).2.errorCount =
      (gridCells allNullEnv.outcome).countP (fun c => !isResultCell c.2.2) ∧
    (runSync allNullEnv idleCred).2.successCount +
      (runSync allNullEnv idleCred).2.errorCount = 280 ∧
    (runSync allNullEnv idleCred).1.observations =
      (gridCells allNullEnv.outcome).filterMap cellObservation :=
  c3_grid_amended allNullEnv idleCred rfl rfl rfl

/-- C4: a run whose authentication succeeds and whose failures happen only
inside per-cell processing always completes: the result is success, the
counters sum to the 280 grid cells, the syncLogs row carries status
completed (never failed) with the final counts, a completion time and a
duration, and the credential row is set to syncStatus success, a null
syncError and lastSyncAt now. -/
theorem c4_run_completes :
    ∀ (env : SyncEnv) (cred0 : CredRow),
      env.dbAvailable = true → env.hasCreds = true →
      env.login = LoginOutcome.ok →
      (runSync env cred0).2.success = true ∧
      (runSync env cred0).2.successCount +
        (runSync env cred0).2.errorCount = 280 ∧
      (runSync env cred0).1.syncLog = some
        { status := RunStatus.completed
          totalHotels := 14
          totalDates := 20
          successCount := (runSync env cred0).2.successCount
          errorCount := (runSync env cred0).2.errorCount
          errorMessage := none
          completedAt := some env.endTime
          duration := some (mathRound
            ((env.endTime - env.startTime : ℚ) / 1000)) } ∧
      (runSync env cred0).1.cred =
        { syncStatus := CredStatus.success
          syncError := none
          lastSyncAt := some env.endTime } := by
  intro env cred0 hdb hc hl
  obtain ⟨h1, h2⟩ := runSync_ok_spec env cred0 hdb hc hl
  refine ⟨by rw [h2], ?_, ?_, by rw [h1]⟩
  · have hsum := countP_split (gridCells env.outcome)
    rw [gridCells_length] at hsum
    rw [h2]
    exact hsum
  · rw [h1, h2]

set_option maxRecDepth 8000 in
/-- C4 witness: the statement applied to the five-failure environment; the
run completes and the counters are 275 and 5. -/
theorem c4_run_completes_witness :
    ((runSync fiveFailEnv idleCred).2.success = true ∧
      (runSync fiveFailEnv idleCred).2.successCount +
        (runSync fiveFailEnv idleCred).2.errorCount = 280 ∧
      (runSync fiveFailEnv idleCred).1.syncLog = some
        { status := RunStatus.completed
          totalHotels := 14
          totalDates := 20
          successCount := (runSync fiveFailEnv idleCred).2.successCount
          errorCount := (runSync fiveFailEnv idleCred).2.errorCount
          errorMessage := none
          completedAt := some fiveFailEnv.endTime
          duration := some (mathRound
            ((fiveFailEnv.endTime - fiveFailEnv.startTime : ℚ) / 1000)) } ∧
      (runSync fiveFailEnv idleCred).1.cred =
        { syncStatus := CredStatus.success
          syncError := none
          lastSyncAt := some fiveFailEnv.endTime }) ∧
    (runSync fiveFailEnv idleCred).2.successCount = 275 ∧
    (runSync fiveFailEnv idleCred).2.errorCount = 5 :=
  ⟨c4_run_completes fiveFailEnv idleCred rfl rfl rfl, by decide, by decide⟩

/-- Rounding to two decimals moves a value by at most half a cent. -/
theorem toFixedTwo_close (q : ℚ) : |toFixedTwo q - q| ≤ 1 / 200 := by
  rw [toFixedTwo, mathRound_eq_floor]
  have h1 : (⌊q * 100 + 1 / 2⌋ : ℚ) ≤ q * 100 + 1 / 2 :=
    Int.floor_le (q * 100 + 1 / 2)
  have h2 : q * 100 + 1 / 2 < (⌊q * 100 + 1 / 2⌋ : ℚ) + 1 :=
    Int.lt_floor_add_one (q * 100 + 1 / 2)
  rw [abs_le]
  constructor <;> [linarith; linarith]

/-- Appending one event to the run applies one endCycle step. -/
theorem runMonitor_concat (t0 : ℤ) (es : List CycleEvent) (e : CycleEvent) :
    runMonitor t0 (es ++ [e]) =
      endCycle e.now e.startTime e.success e.items (runMonitor t0 es) := by
  simp [runMonitor, List.foldl_append]

/-- The window update performed by one endCycle call. -/
theorem endCycle_durations (now startTime : ℤ) (success : Bool) (items : ℤ)
    (st : MonitorState) :
    (endCycle now startTime success items st).cycleDurations =
      (if 100 < (st.cycleDurations ++ [now - startTime]).length
       then (st.cycleDurations ++ [now - startTime]).drop 1
       else st.cycleDurations ++ [now - startTime]) := rfl

/-- The rolling window after any event sequence holds exactly
min(events, 100) durations and is a suffix of the full duration
sequence - the last-100 window. -/
theorem runMonitor_window (t0 : ℤ) (events : List CycleEvent) :
    (runMonitor t0 events).cycleDurations.length = min events.length 100 ∧
    List.IsSuffix (runMonitor t0 events).cycleDurations
      (events.map (fun e => e.now - e.startTime)) := by
  induction events using List.reverseRecOn with
  | nil =>
    constructor
    · simp [runMonitor, initialMonitor]
    · exact List.nil_suffix
  | append_singleton es e ih =>
    obtain ⟨ihl, ihs⟩ := ih
    rw [runMonitor_concat, endCycle_durations]
    have hmap : (es ++ [e]).map (fun x => x.now - x.startTime) =
        (es.map (fun x => x.now - x.startTime)) ++ [e.now - e.startTime] := by
      simp
    obtain ⟨t, ht⟩ := ihs
    have h1 : List.IsSuffix
        ((runMonitor t0 es).cycleDurations ++ [e.now - e.startTime])
        ((es.map (fun x => x.now - x.startTime)) ++ [e.now - e.startTime]) :=
      ⟨t, by rw [← List.append_assoc, ht]⟩
    constructor
    · split
      · rename_i hcond
        simp only [List.length_append, List.length_singleton] at hcond
        simp only [List.length_drop, List.length_append, List.length_singleton,
          List.length_map]
        omega
      · rename_i hcond
        simp only [List.length_append, List.length_singleton] at hcond
        simp only [List.length_append, List.length_singleton,
          List.length_map]
        omega
    · rw [hmap]
      split
      · exact (List.drop_suffix 1 _).trans h1
      · exact h1

/-- C9: getFormattedStats reports a successRate of 0 when totalCycles is
zero, and otherwise the percentage successfulCycles / totalCycles * 100
rendered to two decimals (within half a cent of the exact ratio); and for
any sequence of endCycle calls the duration window holds exactly the last
min(n, 100) durations, never more than 100, with averageCycleDuration the
arithmetic mean of that window. -/
theorem c9_formatted_stats :
    (∀ st : MonitorState, st.totalCycles = 0 → formattedSuccessRate st = 0) ∧
    (∀ st : MonitorState, 0 < st.totalCycles →
      formattedSuccessRate st =
        toFixedTwo ((st.successfulCycles : ℚ) / (st.totalCycles : ℚ) * 100) ∧
      |formattedSuccessRate st -
        (st.successfulCycles : ℚ) / (st.totalCycles : ℚ) * 100| ≤ 1 / 200) ∧
    (∀ (t0 : ℤ) (events : List CycleEvent),
      (runMonitor t0 events).cycleDurations.length = min events.length 100 ∧
      (runMonitor t0 events).cycleDurations.length ≤ 100 ∧
      List.IsSuffix (runMonitor t0 events).cycleDurations
        (events.map (fun e => e.now - e.startTime))) ∧
    (∀ (t0 : ℤ) (es : List CycleEvent) (e : CycleEvent),
      (runMonitor t0 (es ++ [e])).averageCycleDuration =
        ((runMonitor t0 (es ++ [e])).cycleDurations.foldl
          (fun a b => a + b) 0 : ℚ) /
          ((runMonitor t0 (es ++ [e])).cycleDurations.length : ℚ)) := by
  refine ⟨?_, ?_, ?_, ?_⟩
  · intro st h
    simp [formattedSuccessRate, h]
  · intro st h
    constructor
    · simp [formattedSuccessRate, h]
    · rw [(by simp [formattedSuccessRate, h] :
        formattedSuccessRate st =
          toFixedTwo ((st.successfulCycles : ℚ) / (st.totalCycles : ℚ) * 100))]
      exact toFixedTwo_close _
  · intro t0 events
    obtain ⟨hl, hs⟩ := runMonitor_window t0 events
    exact ⟨hl, by omega, hs⟩
  · intro t0 es e
    rw [runMonitor_concat]
    rfl

/-- C9 witness: the parts applied to a fresh monitor, to the state after
two recorded cycles, and to a concrete one-event sequence. -/
theorem c9_formatted_stats_witness :
    formattedSuccessRate (initialMonitor 0) = 0 ∧
    (formattedSuccessRate (runMonitor 0 twoCycleEvents) =
      toFixedTwo
        (((runMonitor 0 twoCycleEvents).successfulCycles : ℚ) /
          ((runMonitor 0 twoCycleEvents).totalCycles : ℚ) * 100) ∧
      |formattedSuccessRate (runMonitor 0 twoCycleEvents) -
        ((runMonitor 0 twoCycleEvents).successfulCycles : ℚ) /
          ((runMonitor 0 twoCycleEvents).totalCycles : ℚ) * 100| ≤ 1 / 200) ∧
    ((runMonitor 3 [oneCycleEvent]).cycleDurations.length =
        min [oneCycleEvent].length 100 ∧
      (runMonitor 3 [oneCycleEvent]).cycleDurations.length ≤ 100 ∧
      List.IsSuffix (runMonitor 3 [oneCycleEvent]).cycleDurations
        ([oneCycleEvent].map (fun e => e.now - e.startTime))) ∧
    (runMonitor 3 ([] ++ [oneCycleEvent])).averageCycleDuration =
      ((runMonitor 3 ([] ++ [oneCycleEvent])).cycleDurations.foldl
        (fun a b => a + b) 0 : ℚ) /
        ((runMonitor 3 ([] ++ [oneCycleEvent])).cycleDurations.length : ℚ) :=
  ⟨c9_formatted_stats.1 (initialMonitor 0) rfl,
   c9_formatted_stats.2.1 (runMonitor 0 twoCycleEvents) (by decide),
   c9_formatted_stats.2.2.1 3 [oneCycleEvent],
   c9_formatted_stats.2.2.2 3 [] oneCycleEvent⟩

/-- When the competitor is cheaper, createPriceAlert reduces to an
update-or-insert on the first active alert for the key. -/
theorem createPriceAlert_neg (now : ℤ) (freshId : ℕ) (table : List AlertRow)
    (u h : ℕ) (dt : String) (up cp : ℤ) (hd : cp - up < 0) :
    createPriceAlert now freshId table u h dt up cp =
      (match table.find? (fun a => alertKeyMatch u h dt a) with
       | some a => table.map fun r =>
           if r.id = a.id then updatedAlert now cp up r else r
       | none => table ++ [newAlert now freshId u h dt up cp]) := by
  simp [createPriceAlert, hd, updatedAlert, newAlert]

/-- When the competitor is not cheaper, createPriceAlert leaves the table
untouched. -/
theorem createPriceAlert_nonneg (now : ℤ) (freshId : ℕ)
    (table : List AlertRow) (u h : ℕ) (dt : String) (up cp : ℤ)
    (hd : ¬ cp - up < 0) :
    createPriceAlert now freshId table u h dt up cp = table := by
  by_cases h2 : 0 < cp - up <;> simp [createPriceAlert, hd, h2]

/-- The in-place update does not change the key fields or the active
flag, so the active-alert filter sees the same rows. -/
theorem alertKeyMatch_updated (u h : ℕ) (dt : String) (now cp up : ℤ)
    (r : AlertRow) :
    alertKeyMatch u h dt (updatedAlert now cp up r) = alertKeyMatch u h dt r :=
  rfl

/-- C8: with difference = competitorPrice - userPrice: a nonnegative
difference leaves the whole table untouched; a negative difference with an
existing first active alert for (user, hotel, date) updates that row in
place (same length, same id, competitorPrice, priceDifference and createdAt
refreshed, every other row untouched); a negative difference with no active
alert appends exactly one new active row; and the table never gains a
second active row for the key. -/
theorem c8_create_price_alert :
    (∀ (now : ℤ) (freshId : ℕ) (table : List AlertRow) (u h : ℕ)
      (dt : String) (up cp : ℤ), ¬ cp - up < 0 →
      createPriceAlert now freshId table u h dt up cp = table) ∧
    (∀ (now : ℤ) (freshId : ℕ) (table : List AlertRow) (u h : ℕ)
      (dt : String) (up cp : ℤ) (a : AlertRow), cp - up < 0 →
      table.find? (fun r => alertKeyMatch u h dt r) = some a →
      (createPriceAlert now freshId table u h dt up cp).length =
        table.length ∧
      updatedAlert now cp up a ∈
        createPriceAlert now freshId table u h dt up cp ∧
      (∀ r ∈ table, r.id ≠ a.id →
        r ∈ createPriceAlert now freshId table u h dt up cp)) ∧
    (∀ (now : ℤ) (freshId : ℕ) (table : List AlertRow) (u h : ℕ)
      (dt : String) (up cp : ℤ), cp - up < 0 →
      table.find? (fun r => alertKeyMatch u h dt r) = none →
      createPriceAlert now freshId table u h dt up cp =
        table ++ [newAlert now freshId u h dt up cp]) ∧
    (∀ (now : ℤ) (freshId : ℕ) (table : List AlertRow) (u h : ℕ)
      (dt : String) (up cp : ℤ),
      table.countP (fun r => alertKeyMatch u h dt r) ≤ 1 →
      (createPriceAlert now freshId table u h dt up cp).countP
        (fun r => alertKeyMatch u h dt r) ≤ 1) := by
  refine ⟨?_, ?_, ?_, ?_⟩
  · intro now freshId table u h dt up cp hd
    exact createPriceAlert_nonneg now freshId table u h dt up cp hd
  · intro now freshId table u h dt up cp a hd hfind
    rw [createPriceAlert_neg now freshId table u h dt up cp hd, hfind]
    refine ⟨List.length_map _ _, ?_, ?_⟩
    · have ha : a ∈ table := List.mem_of_find?_eq_some hfind
      have hmem : (if a.id = a.id then updatedAlert now cp up a else a) ∈
          List.map (fun r => if r.id = a.id then updatedAlert now cp up r else r)
            table :=
        List.mem_map_of_mem _ ha
      rw [if_pos rfl] at hmem
      exact hmem
    · intro r hr hne
      have hmem : (if r.id = a.id then updatedAlert now cp up r else r) ∈
          List.map (fun x => if x.id = a.id then updatedAlert now cp up x else x)
            table :=
        List.mem_map_of_mem _ hr
      rw [if_neg hne] at hmem
      exact hmem
  · intro now freshId table u h dt up cp hd hfind
    rw [createPriceAlert_neg now freshId table u h dt up cp hd, hfind]
  · intro now freshId table u h dt up cp hcount
    by_cases hd : cp - up < 0
    · rw [createPriceAlert_neg now freshId table u h dt up cp hd]
      cases hfind : table.find? (fun r => alertKeyMatch u h dt r) with
      | some a =>
        show List.countP (fun r => alertKeyMatch u h dt r)
          (List.map
            (fun r => if r.id = a.id then updatedAlert now cp up r else r)
            table) ≤ 1
        have hkey : ∀ r : AlertRow,
            alertKeyMatch u h dt
              (if r.id = a.id then updatedAlert now cp up r else r) =
              alertKeyMatch u h dt r := by
          intro r
          by_cases hid : r.id = a.id <;> simp [hid, alertKeyMatch_updated]
        rw [List.countP_map]
        have hc : List.countP
            ((fun r => alertKeyMatch u h dt r) ∘
              (fun r => if r.id = a.id then updatedAlert now cp up r else r))
            table = List.countP (fun r => alertKeyMatch u h dt r) table :=
          List.countP_congr (by intro x hx; simp [Function.comp, hkey x])
        rw [hc]
        exact hcount
      | none =>
        show List.countP (fun r => alertKeyMatch u h dt r)
          (table ++ [newAlert now freshId u h dt up cp]) ≤ 1
        have hzero : List.countP (fun r => alertKeyMatch u h dt r) table = 0 :=
          List.countP_eq_zero.mpr (List.find?_eq_none.mp hfind)
        have h1 : List.countP (fun r => alertKeyMatch u h dt r)
            [newAlert now freshId u h dt up cp] ≤ 1 := by
          rw [List.countP_cons]
          simp only [List.countP_nil, Nat.zero_add]
          split <;> omega
        rw [List.countP_append, hzero]
        omega
    · rw [createPriceAlert_nonneg now freshId table u h dt up cp hd]
      exact hcount

/-- C8 witness: the scenario of the claim - price 220 against 200 creates
one active alert with difference -20; re-evaluating against 205 updates the
same single row to difference -15 instead of adding a second; evaluating
against 230 changes nothing; and the single-active-alert bound is
preserved. -/
theorem c8_create_price_alert_witness :
    (createPriceAlert 100 1 [] 7 3 "2026-02-16" 220 200 =
      [] ++ [newAlert 100 1 7 3 "2026-02-16" 220 200]) ∧
    (alertsAfterSecond.length = alertsAfterFirst.length ∧
      updatedAlert 200 205 220 firstAlertRow ∈ alertsAfterSecond ∧
      (∀ r ∈ alertsAfterFirst, r.id ≠ firstAlertRow.id →
        r ∈ alertsAfterSecond)) ∧
    createPriceAlert 300 3 alertsAfterSecond 7 3 "2026-02-16" 220 230 =
      alertsAfterSecond ∧
    alertsAfterSecond.countP (fun r => alertKeyMatch 7 3 "2026-02-16" r) ≤ 1 ∧
    alertsAfterFirst = [firstAlertRow] ∧
    firstAlertRow.priceDifference = -20 ∧
    alertsAfterSecond = [updatedAlert 200 205 220 firstAlertRow] ∧
    (updatedAlert 200 205 220 firstAlertRow).priceDifference = -15 :=
  ⟨c8_create_price_alert.2.2.1 100 1 [] 7 3 "2026-02-16" 220 200
      (by decide) rfl,
   c8_create_price_alert.2.1 200 2 alertsAfterFirst 7 3 "2026-02-16" 220 205
      firstAlertRow (by decide) (by decide),
   c8_create_price_alert.1 300 3 alertsAfterSecond 7 3 "2026-02-16" 220 230
      (by decide),
   c8_create_price_alert.2.2.2 200 2 alertsAfterFirst 7 3 "2026-02-16" 220 205
      (by decide),
   by decide, by decide, by decide, by decide⟩

end Mada
